import Mathlib

set_option autoImplicit false

/-!
Verification of `src/ultralytics/yolo/utils/callbacks/git_tags.py`
(the single source file of the repository): a shallow embedding of the
function `repository_tags` and of the slice of the GitPython capability
surface it consumes, together with proofs of the specified properties.

The Python function:

```python
def repository_tags(prefix="git", search_parent_directories=False, suppress=False):
    repo = Repo(search_parent_directories=search_parent_directories)
    if repo.is_dirty(untracked_files=True, submodules=True) and not suppress:
        raise DirtyGitRepo("...")
    prefix = prefix or "git"
    data = {
        f"{prefix}-branch": repo.active_branch,
        f"{prefix}-hash": repo.head.object.hexsha,
        f"{prefix}-origin": repo.remotes.origin.url,
    }
    for submodule in repo.submodules:
        _prefix = f"{prefix}-submodule-{submodule.name}"
        data.update({
            f"{_prefix}-branch": submodule.branch,
            f"{_prefix}-hash": submodule.hexsha,
            f"{_prefix}-origin": submodule.url,
        })
    return {key: str(val) for key, val in data.items()}
```

GitPython (the `git` library) is an external collaborator: the spec
abstracts it as a capability interface answering "is the tree dirty?",
"what is the branch / commit / origin?", "what submodules exist?".
Each of those queries may itself fail (corrupt repository, missing
remote, ...), and repository resolution (`Repo(...)`) may fail with
`InvalidGitRepositoryError` / `NoSuchPathError`.  We model a resolved
repository as a record of query outcomes, and `Repo(...)` as a function
from the `search_parent_directories` flag to an `Except` of such a
record.  Python exceptions become `Except.error`; Python's left-to-right
evaluation of `A and B` (the call `repo.is_dirty(...)` is evaluated
before `not suppress` is consulted) is preserved by sequencing the
dirtiness query before the `suppress` test.  Python dicts become
insertion-ordered association lists with Python's insert / update /
lookup semantics.
-/

namespace Git

universe u v

/-- A value handed back by the GitPython layer.  GitPython represents
some attributes natively as richer objects (e.g. `repo.active_branch`
and `submodule.branch` are `Head` objects) and others as plain strings
(`hexsha`, urls).  `str(...)` in the final dict comprehension coerces
either to a string. -/
inductive GitValue where
  | str (s : String)
  | headObj (name : String)
  deriving DecidableEq, Repr

/-- Python `str(...)` on a `GitValue`: a plain string is itself, and
`str` of a GitPython `Head` object is the branch name. -/
def pyStr : GitValue → String
  | GitValue.str s => s
  | GitValue.headObj n => n

/-- Errors raised by the GitPython layer itself (never `DirtyGitRepo`,
which is defined by and raised from `git_tags.py`):
`InvalidGitRepositoryError` / `NoSuchPathError` from repository
resolution, or any other query failure. -/
inductive GitError where
  | invalidGitRepositoryError
  | noSuchPathError
  | queryFailure (msg : String)
  deriving DecidableEq, Repr

/-- The errors that can escape `repository_tags`: its own
`DirtyGitRepo` exception, or an error of the GitPython layer propagated
unchanged. -/
inductive TagError where
  | dirtyGitRepo (msg : String)
  | git (e : GitError)
  deriving DecidableEq, Repr

/-- A submodule record as enumerated by `repo.submodules`: a name and
the three attributes `git_tags.py` reads (`.branch` is a `Head` object
in GitPython, `.hexsha` and `.url` are strings; we keep all three as
`GitValue` so that the coercion in the final comprehension is visible). -/
structure Submodule where
  name : String
  branch : GitValue
  hexsha : GitValue
  url : GitValue
  deriving DecidableEq, Repr

/-- A resolved repository handle: the outcome of every GitPython query
`repository_tags` performs against it.  The first three booleans are
the three ingredients of dirtiness named by the spec — tracked
modifications, untracked files, and (recursively) dirty submodules;
`dirtyQueryFailure` models the dirtiness query itself failing.  The
remaining fields are the attribute queries, each fallible. -/
structure RepoState where
  trackedModifications : Bool
  untrackedFiles : Bool
  submodulesDirty : Bool
  dirtyQueryFailure : Option GitError
  active_branch : Except GitError GitValue
  head_object_hexsha : Except GitError GitValue
  remotes_origin_url : Except GitError GitValue
  submodules : Except GitError (List Submodule)

/-- GitPython's `repo.is_dirty(untracked_files=..., submodules=...)`:
tracked modifications always count; untracked files and submodule state
count when the corresponding flag is set.  `git_tags.py` calls it with
both flags `True`. -/
def RepoState.is_dirty (r : RepoState) (untracked_files submodules : Bool) :
    Except GitError Bool :=
  match r.dirtyQueryFailure with
  | some e => Except.error e
  | none => Except.ok (r.trackedModifications
      || (untracked_files && r.untrackedFiles)
      || (submodules && r.submodulesDirty))

/-- Python `dict` insertion (`d[k] = v`): if the key is present its
value is replaced in place (insertion order kept), otherwise the pair
is appended. -/
def dictInsert {α : Type u} (d : List (String × α)) (k : String) (v : α) :
    List (String × α) :=
  if d.any (fun kv => kv.1 == k) then
    d.map (fun kv => if kv.1 == k then (k, v) else kv)
  else
    d ++ [(k, v)]

/-- Python `dict` lookup: the value at the first (and, for a genuine
dict, only) occurrence of the key. -/
def dictGet {α : Type u} (d : List (String × α)) (k : String) : Option α :=
  (d.find? (fun kv => kv.1 == k)).map Prod.snd

/-- A Python `dict` literal `{k1: v1, ...}`: successive insertion into
an empty dict. -/
def dictLit {α : Type u} (es : List (String × α)) : List (String × α) :=
  es.foldl (fun d kv => dictInsert d kv.1 kv.2) []

/-- Python `d.update(other)`: every entry of `other` inserted into `d`
in order. -/
def dictUpdate {α : Type u} (d other : List (String × α)) : List (String × α) :=
  other.foldl (fun acc kv => dictInsert acc kv.1 kv.2) d

/-- The message of the `DirtyGitRepo` exception raised by
`repository_tags` (whitespace of the source's line continuation
simplified). -/
def dirtyMsg : String :=
  "The purpose of logging git tags is being able to repoduce. Please commit and push OR restore your changes"

/-- Shallow embedding of `repository_tags`.  `Repo` models the
GitPython constructor `Repo(search_parent_directories=...)`: given the
flag it either resolves a `RepoState` or fails.  Statement-by-statement
translation of the Python body (`pfx` stands for the Python parameter
named like the Lean keyword for its default-`"git"` namespacing
argument); the returned mapping is the final dict as an
insertion-ordered association list. -/
def repository_tags (Repo : Bool → Except GitError RepoState)
    (pfx : String := "git") (search_parent_directories : Bool := false)
    (suppress : Bool := false) : Except TagError (List (String × String)) := do
  let repo ← (Repo search_parent_directories).mapError TagError.git
  let dirty ← (repo.is_dirty true true).mapError TagError.git
  if dirty && !suppress then
    throw (TagError.dirtyGitRepo dirtyMsg)
  let pfx := if pfx = "" then "git" else pfx
  let branch ← repo.active_branch.mapError TagError.git
  let hexsha ← repo.head_object_hexsha.mapError TagError.git
  let origin ← repo.remotes_origin_url.mapError TagError.git
  let data : List (String × GitValue) := dictLit
    [(pfx ++ "-branch", branch),
     (pfx ++ "-hash", hexsha),
     (pfx ++ "-origin", origin)]
  let subs ← repo.submodules.mapError TagError.git
  let data := subs.foldl (fun data submodule =>
    let p := pfx ++ "-submodule-" ++ submodule.name
    dictUpdate data (dictLit
      [(p ++ "-branch", submodule.branch),
       (p ++ "-hash", submodule.hexsha),
       (p ++ "-origin", submodule.url)])) data
  return data.map (fun kv => (kv.1, pyStr kv.2))

/-- The three main-repository entries, in insertion order. -/
def mainEntries (P : String) (b h o : GitValue) : List (String × GitValue) :=
  [(P ++ "-branch", b), (P ++ "-hash", h), (P ++ "-origin", o)]

/-- The three entries contributed by one submodule, in insertion order. -/
def subEntries (P : String) (sm : Submodule) : List (String × GitValue) :=
  [(P ++ "-submodule-" ++ sm.name ++ "-branch", sm.branch),
   (P ++ "-submodule-" ++ sm.name ++ "-hash", sm.hexsha),
   (P ++ "-submodule-" ++ sm.name ++ "-origin", sm.url)]

/-- The dict built by `repository_tags` before string coercion: the
main entries updated with every submodule's entries in order. -/
def tagData (P : String) (b h o : GitValue) (subs : List Submodule) :
    List (String × GitValue) :=
  dictUpdate (mainEntries P b h o) (subs.flatMap (subEntries P))

/-- The keys a successful call is specified to emit: the three
main-repository keys plus three namespaced keys per submodule. -/
def expectedKeys (P : String) (subs : List Submodule) : List String :=
  [P ++ "-branch", P ++ "-hash", P ++ "-origin"]
    ++ subs.flatMap (fun sm =>
      [P ++ "-submodule-" ++ sm.name ++ "-branch",
       P ++ "-submodule-" ++ sm.name ++ "-hash",
       P ++ "-submodule-" ++ sm.name ++ "-origin"])

/-- A clean repository with one submodule `vendor-lib`, as in the
spec's submodule-namespacing property. -/
def vendorRepo : RepoState where
  trackedModifications := false
  untrackedFiles := false
  submodulesDirty := false
  dirtyQueryFailure := none
  active_branch := Except.ok (GitValue.headObj "main")
  head_object_hexsha := Except.ok (GitValue.str "0123abcd")
  remotes_origin_url := Except.ok (GitValue.str "https://example.com/app.git")
  submodules := Except.ok
    [Submodule.mk "vendor-lib" (GitValue.headObj "main") (GitValue.str "deadbeef")
      (GitValue.str "https://example.com/vendor-lib.git")]

/-- A repository whose working tree holds one untracked file (dirty)
but whose queries all succeed. -/
def dirtyRepo : RepoState where
  trackedModifications := false
  untrackedFiles := true
  submodulesDirty := false
  dirtyQueryFailure := none
  active_branch := Except.ok (GitValue.headObj "main")
  head_object_hexsha := Except.ok (GitValue.str "0123abcd")
  remotes_origin_url := Except.ok (GitValue.str "https://example.com/app.git")
  submodules := Except.ok []

/-- A repository whose dirtiness query itself fails (e.g. a corrupt
repository making `git diff` fail). -/
def dirtyQueryFailRepo : RepoState where
  trackedModifications := false
  untrackedFiles := true
  submodulesDirty := false
  dirtyQueryFailure := some (GitError.queryFailure "git diff failed")
  active_branch := Except.ok (GitValue.headObj "main")
  head_object_hexsha := Except.ok (GitValue.str "0123abcd")
  remotes_origin_url := Except.ok (GitValue.str "https://example.com/app.git")
  submodules := Except.ok []

/-- A clean repository whose VCS layer reports two submodules with the
same name `lib`. -/
def dupNamesRepo : RepoState where
  trackedModifications := false
  untrackedFiles := false
  submodulesDirty := false
  dirtyQueryFailure := none
  active_branch := Except.ok (GitValue.headObj "main")
  head_object_hexsha := Except.ok (GitValue.str "0123abcd")
  remotes_origin_url := Except.ok (GitValue.str "https://example.com/app.git")
  submodules := Except.ok
    [Submodule.mk "lib" (GitValue.headObj "first") (GitValue.str "1111")
      (GitValue.str "https://example.com/first.git"),
     Submodule.mk "lib" (GitValue.headObj "second") (GitValue.str "2222")
      (GitValue.str "https://example.com/second.git")]

/-- A clean repository whose origin-URL query fails (no remote named
`origin`), the spec's "missing remote" example of a VCS-layer query
failure. -/
def missingRemoteRepo : RepoState where
  trackedModifications := false
  untrackedFiles := false
  submodulesDirty := false
  dirtyQueryFailure := none
  active_branch := Except.ok (GitValue.headObj "main")
  head_object_hexsha := Except.ok (GitValue.str "0123abcd")
  remotes_origin_url := Except.error (GitError.queryFailure "no remote named origin")
  submodules := Except.ok []

/-! ### Reduction lemmas for the `Except` monad -/

theorem mapError_ok {ε ε' α : Type u} (f : ε → ε') (a : α) :
    Except.mapError f (Except.ok a : Except ε α) = Except.ok a := rfl

theorem mapError_error {ε ε' α : Type u} (f : ε → ε') (e : ε) :
    Except.mapError f (Except.error e : Except ε α) = Except.error (f e) := rfl

theorem ok_bind {ε α β : Type u} (a : α) (f : α → Except ε β) :
    (Except.ok a >>= f) = f a := rfl

theorem error_bind {ε α β : Type u} (e : ε) (f : α → Except ε β) :
    ((Except.error e : Except ε α) >>= f) = Except.error e := rfl

theorem epure_bind {ε α β : Type u} (a : α) (f : α → Except ε β) :
    ((Except.pure a : Except ε α) >>= f) = f a := rfl

/-! ### Python dict semantics -/

theorem dictGet_dictInsert {α : Type u} (d : List (String × α)) (k : String) (v : α)
    (k' : String) :
    dictGet (dictInsert d k v) k' = if k' = k then some v else dictGet d k' := by
  unfold dictGet dictInsert
  by_cases hany : d.any (fun kv => kv.1 == k)
  · simp only [hany, if_true, List.find?_map]
    by_cases hk : k' = k
    · subst hk
      have hp : ((fun kv : String × α => kv.1 == k') ∘ fun kv => if kv.1 == k' then (k', v) else kv)
          = fun kv => kv.1 == k' := by
        funext kv
        by_cases h : kv.1 = k' <;> simp [h]
      rw [hp]
      rcases hfind : d.find? (fun kv => kv.1 == k') with _ | kv0
      · exfalso
        rw [List.find?_eq_none] at hfind
        rw [List.any_eq_true] at hany
        obtain ⟨x, hx, hpx⟩ := hany
        exact hfind x hx hpx
      · have hkv0 : kv0.1 = k' := by
          have := List.find?_some hfind
          simpa using this
        rw [hfind]
        simp [hkv0]
    · have hp : ((fun kv : String × α => kv.1 == k') ∘ fun kv => if kv.1 == k then (k, v) else kv)
          = fun kv => kv.1 == k' := by
        funext kv
        by_cases h : kv.1 = k
        · simp [h, Ne.symm hk, hk]
        · simp [h]
      rw [hp, if_neg hk]
      rcases hfind : d.find? (fun kv => kv.1 == k') with _ | kv0
      · rw [hfind]
        simp
      · have hkv0 : kv0.1 = k' := by
          have := List.find?_some hfind
          simpa using this
        have hne : ¬(kv0.1 = k) := by rw [hkv0]; exact hk
        rw [hfind]
        simp [hkv0, hne, hk]
  · rw [if_neg hany, List.find?_append]
    by_cases hk : k' = k
    · subst hk
      have hfn : d.find? (fun kv => kv.1 == k') = none := by
        rw [List.find?_eq_none]
        intro x hx hpx
        exact hany (List.any_eq_true.mpr ⟨x, hx, hpx⟩)
      simp [hfn]
    · have h1 : ¬((k, v).1 = k') := fun h => hk (h ▸ rfl)
      simp [h1, Option.or_none, hk]

theorem dictGet_dictUpdate {α : Type u} (es : List (String × α)) (d : List (String × α))
    (k : String) :
    dictGet (dictUpdate d es) k = (dictGet es.reverse k).or (dictGet d k) := by
  induction es generalizing d with
  | nil => simp [dictUpdate, dictGet]
  | cons e t ih =>
    show dictGet (dictUpdate (dictInsert d e.1 e.2) t) k = _
    rw [ih]
    unfold dictGet
    rw [List.reverse_cons, List.find?_append, Option.map_or', Option.or_assoc]
    congr 1
    have h1 : Option.map Prod.snd (List.find? (fun kv => kv.1 == k) (dictInsert d e.1 e.2))
        = dictGet (dictInsert d e.1 e.2) k := rfl
    rw [h1, dictGet_dictInsert]
    by_cases h : k = e.1
    · subst h
      simp [dictGet]
    · have h2 : ¬(e.1 = k) := fun hh => h hh.symm
      simp [dictGet, h2, h]

theorem dictGet_append {α : Type u} (d1 d2 : List (String × α)) (k : String) :
    dictGet (d1 ++ d2) k = (dictGet d1 k).or (dictGet d2 k) := by
  unfold dictGet
  rw [List.find?_append, Option.map_or']

theorem dictGet_isSome_iff {α : Type u} (d : List (String × α)) (k : String) :
    (dictGet d k).isSome ↔ k ∈ d.map Prod.fst := by
  simp [dictGet, List.find?_isSome, List.mem_map, beq_iff_eq]

theorem dictLit_three {α : Type u} (k1 k2 k3 : String) (v1 v2 v3 : α)
    (h12 : k1 ≠ k2) (h13 : k1 ≠ k3) (h23 : k2 ≠ k3) :
    dictLit [(k1, v1), (k2, v2), (k3, v3)] = [(k1, v1), (k2, v2), (k3, v3)] := by
  simp [dictLit, dictInsert, Ne.symm h12, Ne.symm h13, Ne.symm h23, h12, h13, h23]

theorem foldl_dictUpdate_flatMap {α : Type u} {β : Type v} (e : β → List (String × α))
    (l : List β) (d : List (String × α)) :
    l.foldl (fun acc x => dictUpdate acc (e x)) d = dictUpdate d (l.flatMap e) := by
  induction l generalizing d with
  | nil => rfl
  | cons x t ih =>
    rw [List.flatMap_cons]
    show t.foldl _ (dictUpdate d (e x)) = _
    rw [ih]
    unfold dictUpdate
    rw [List.foldl_append]

/-! ### Disjointness of the key families -/

theorem append_ne_right (P : String) {a b : String} (h : a ≠ b) : P ++ a ≠ P ++ b := by
  intro he
  apply h
  have hd := congrArg String.data he
  rw [String.data_append, String.data_append] at hd
  exact String.ext (List.append_cancel_left hd)

/-- If two suffixes differ at some position counted from the right end,
then no extensions on the left can make them equal. -/
theorem append_ne_of_rev_getElem (s t : List Char) (i : Nat)
    (his : i < s.length) (hit : i < t.length)
    (hne : s.reverse[i]? ≠ t.reverse[i]?) :
    ∀ l m : List Char, l ++ s ≠ m ++ t := by
  intro l m he
  apply hne
  have hrev := congrArg List.reverse he
  rw [List.reverse_append, List.reverse_append] at hrev
  have h1 : (s.reverse ++ l.reverse)[i]? = s.reverse[i]? :=
    List.getElem?_append_left (by simpa using his)
  have h2 : (t.reverse ++ m.reverse)[i]? = t.reverse[i]? :=
    List.getElem?_append_left (by simpa using hit)
  rw [← h1, ← h2, hrev]

/-- String version: a string ending in `s` never equals one ending in
`t` when `s` and `t` differ at some position from the right. -/
theorem str_append_ne_of_rev (s t : String) (i : Nat)
    (his : i < s.data.length) (hit : i < t.data.length)
    (hne : s.data.reverse[i]? ≠ t.data.reverse[i]?)
    (a b : String) : a ++ s ≠ b ++ t := by
  intro he
  have hd := congrArg String.data he
  rw [String.data_append, String.data_append] at hd
  exact append_ne_of_rev_getElem s.data t.data i his hit hne a.data b.data hd

/-- A main-repository key `P ++ f` is never a submodule key
`P ++ "-submodule-" ++ n ++ g` when the field suffix `f` is shorter
than `"-submodule-" ++ g`. -/
theorem mainKey_ne_subKey (P n : String) {f g : String}
    (h : f.length < "-submodule-".length + g.length) :
    P ++ f ≠ P ++ "-submodule-" ++ n ++ g := by
  intro he
  have hl := congrArg String.length he
  simp only [String.length_append] at hl
  omega

/-- Submodule keys with the same field suffix but different submodule
names differ. -/
theorem subKey_ne_of_name_ne (P f : String) {m n : String} (h : m ≠ n) :
    P ++ "-submodule-" ++ m ++ f ≠ P ++ "-submodule-" ++ n ++ f := by
  intro he
  apply h
  have hd := congrArg String.data he
  simp only [String.data_append] at hd
  exact String.ext (List.append_cancel_left (List.append_cancel_right hd))

/-! ### The dict built by a successful call -/

theorem dictLit_mainEntries (P : String) (b h o : GitValue) :
    dictLit [(P ++ "-branch", b), (P ++ "-hash", h), (P ++ "-origin", o)]
      = mainEntries P b h o :=
  dictLit_three _ _ _ _ _ _
    (append_ne_right P (by decide)) (append_ne_right P (by decide))
    (append_ne_right P (by decide))

theorem dictLit_subEntries (P : String) (sm : Submodule) :
    dictLit [(P ++ "-submodule-" ++ sm.name ++ "-branch", sm.branch),
     (P ++ "-submodule-" ++ sm.name ++ "-hash", sm.hexsha),
     (P ++ "-submodule-" ++ sm.name ++ "-origin", sm.url)] = subEntries P sm :=
  dictLit_three _ _ _ _ _ _
    (append_ne_right _ (by decide)) (append_ne_right _ (by decide))
    (append_ne_right _ (by decide))

/-- When resolution succeeds, the dirtiness query succeeds, and the
gate passes (clean tree or `suppress`), and every attribute query
succeeds, `repository_tags` returns the string coercion of `tagData`
under the normalized namespacing argument. -/
theorem repository_tags_ok (Repo : Bool → Except GitError RepoState)
    (p : String) (spd suppress : Bool) (repo : RepoState)
    (b h o : GitValue) (subs : List Submodule)
    (hres : Repo spd = Except.ok repo)
    (hq : repo.dirtyQueryFailure = none)
    (hnd : (repo.trackedModifications || repo.untrackedFiles || repo.submodulesDirty) = false
      ∨ suppress = true)
    (hb : repo.active_branch = Except.ok b)
    (hh : repo.head_object_hexsha = Except.ok h)
    (ho : repo.remotes_origin_url = Except.ok o)
    (hs : repo.submodules = Except.ok subs) :
    repository_tags Repo p spd suppress =
      Except.ok ((tagData (if p = "" then "git" else p) b h o subs).map
        (fun kv => (kv.1, pyStr kv.2))) := by
  unfold repository_tags
  rw [hres, mapError_ok, ok_bind]
  unfold RepoState.is_dirty
  rw [hq]
  simp only [mapError_ok, ok_bind, Bool.true_and]
  have hcond : ((repo.trackedModifications || repo.untrackedFiles || repo.submodulesDirty)
      && !suppress) = false := by
    rcases hnd with hnd | hnd <;> simp [hnd]
  rw [hcond]
  simp only [Bool.false_eq_true, if_false, epure_bind]
  rw [hb, hh, ho, hs]
  simp only [mapError_ok, ok_bind, epure_bind]
  rw [dictLit_mainEntries]
  have hstep : (fun (data : List (String × GitValue)) (submodule : Submodule) =>
      dictUpdate data (dictLit
        [((if p = "" then "git" else p) ++ "-submodule-" ++ submodule.name ++ "-branch", submodule.branch),
         ((if p = "" then "git" else p) ++ "-submodule-" ++ submodule.name ++ "-hash", submodule.hexsha),
         ((if p = "" then "git" else p) ++ "-submodule-" ++ submodule.name ++ "-origin", submodule.url)]))
      = fun data sm => dictUpdate data (subEntries (if p = "" then "git" else p) sm) := by
    funext data sm
    rw [dictLit_subEntries]
  rw [hstep, foldl_dictUpdate_flatMap]
  rfl

/-! ### Lookups in `tagData` -/

theorem dictGet_tagData (P : String) (b h o : GitValue) (subs : List Submodule)
    (k : String) :
    dictGet (tagData P b h o subs) k =
      (dictGet (subs.flatMap (subEntries P)).reverse k).or
        (dictGet (mainEntries P b h o) k) := by
  unfold tagData
  rw [dictGet_dictUpdate]

theorem dictGet_revSub_mainKey (P : String) (subs : List Submodule) (f : String)
    (hf : f.length < 16) :
    dictGet ((subs.flatMap (subEntries P)).reverse) (P ++ f) = none := by
  unfold dictGet
  have hfind : ((subs.flatMap (subEntries P)).reverse.find?
      (fun kv => kv.1 == P ++ f)) = none := by
    rw [List.find?_eq_none]
    intro kv hkv
    rw [List.mem_reverse, List.mem_flatMap] at hkv
    obtain ⟨sm, _, hin⟩ := hkv
    have hb : ("-submodule-" : String).length = 11 := rfl
    have h7 : ("-branch" : String).length = 7 := rfl
    have h5 : ("-hash" : String).length = 5 := rfl
    have h6 : ("-origin" : String).length = 7 := rfl
    simp only [subEntries, List.mem_cons, List.not_mem_nil, or_false] at hin
    rcases hin with hin | hin | hin <;>
      · subst hin
        simp only [beq_iff_eq]
        intro heq
        exact mainKey_ne_subKey P sm.name (by omega) heq.symm
  rw [hfind]
  rfl

theorem dictGet_mainEntries_branch (P : String) (b h o : GitValue) :
    dictGet (mainEntries P b h o) (P ++ "-branch") = some b := by
  simp [mainEntries, dictGet, List.find?]

theorem dictGet_mainEntries_hash (P : String) (b h o : GitValue) :
    dictGet (mainEntries P b h o) (P ++ "-hash") = some h := by
  have h1 : (P ++ "-branch" == P ++ "-hash") = false := by
    rw [beq_eq_false_iff_ne]
    exact append_ne_right P (by decide)
  simp [mainEntries, dictGet, List.find?, h1]

theorem dictGet_mainEntries_origin (P : String) (b h o : GitValue) :
    dictGet (mainEntries P b h o) (P ++ "-origin") = some o := by
  have h1 : (P ++ "-branch" == P ++ "-origin") = false := by
    rw [beq_eq_false_iff_ne]
    exact append_ne_right P (by decide)
  have h2 : (P ++ "-hash" == P ++ "-origin") = false := by
    rw [beq_eq_false_iff_ne]
    exact append_ne_right P (by decide)
  simp [mainEntries, dictGet, List.find?, h1, h2]

theorem dictGet_tagData_branch (P : String) (b h o : GitValue) (subs : List Submodule) :
    dictGet (tagData P b h o subs) (P ++ "-branch") = some b := by
  rw [dictGet_tagData, dictGet_revSub_mainKey P subs _ (by decide), Option.none_or,
    dictGet_mainEntries_branch]

theorem dictGet_tagData_hash (P : String) (b h o : GitValue) (subs : List Submodule) :
    dictGet (tagData P b h o subs) (P ++ "-hash") = some h := by
  rw [dictGet_tagData, dictGet_revSub_mainKey P subs _ (by decide), Option.none_or,
    dictGet_mainEntries_hash]

theorem dictGet_tagData_origin (P : String) (b h o : GitValue) (subs : List Submodule) :
    dictGet (tagData P b h o subs) (P ++ "-origin") = some o := by
  rw [dictGet_tagData, dictGet_revSub_mainKey P subs _ (by decide), Option.none_or,
    dictGet_mainEntries_origin]

theorem dictGet_map_str (d : List (String × GitValue)) (k : String) :
    dictGet (d.map (fun kv => (kv.1, pyStr kv.2))) k = (dictGet d k).map pyStr := by
  unfold dictGet
  rw [List.find?_map]
  have hp : ((fun kv : String × String => kv.1 == k) ∘
      fun kv : String × GitValue => (kv.1, pyStr kv.2)) = fun kv => kv.1 == k := rfl
  rw [hp]
  rcases hfind : d.find? (fun kv => kv.1 == k) with _ | kv <;> rw [hfind] <;> rfl

theorem keys_map_str (d : List (String × GitValue)) :
    (d.map (fun kv => (kv.1, pyStr kv.2))).map Prod.fst = d.map Prod.fst := by
  rw [List.map_map]
  rfl

theorem mem_keys_tagData (P : String) (b h o : GitValue) (subs : List Submodule)
    (k : String) :
    k ∈ (tagData P b h o subs).map Prod.fst ↔
      k ∈ (mainEntries P b h o).map Prod.fst
        ∨ k ∈ (subs.flatMap (subEntries P)).map Prod.fst := by
  rw [← dictGet_isSome_iff, dictGet_tagData, Option.isSome_or, Bool.or_eq_true,
    dictGet_isSome_iff, dictGet_isSome_iff, List.map_reverse, List.mem_reverse]
  exact Or.comm

theorem subEntries_reverse (P : String) (sm : Submodule) :
    (subEntries P sm).reverse =
      [(P ++ "-submodule-" ++ sm.name ++ "-origin", sm.url),
       (P ++ "-submodule-" ++ sm.name ++ "-hash", sm.hexsha),
       (P ++ "-submodule-" ++ sm.name ++ "-branch", sm.branch)] := rfl

theorem dictGet_revBlocks_branch (P n : String) (l : List Submodule) :
    dictGet (l.flatMap (fun sm => (subEntries P sm).reverse))
        (P ++ "-submodule-" ++ n ++ "-branch")
      = (l.find? (fun sm => sm.name == n)).map (fun sm => sm.branch) := by
  induction l with
  | nil => rfl
  | cons sm t ih =>
    rw [List.flatMap_cons, dictGet_append, ih, subEntries_reverse]
    by_cases hname : sm.name = n
    · subst hname
      have hk1 : (P ++ "-submodule-" ++ sm.name ++ "-origin"
          == P ++ "-submodule-" ++ sm.name ++ "-branch") = false := by
        rw [beq_eq_false_iff_ne]
        exact append_ne_right _ (by decide)
      have hk2 : (P ++ "-submodule-" ++ sm.name ++ "-hash"
          == P ++ "-submodule-" ++ sm.name ++ "-branch") = false := by
        rw [beq_eq_false_iff_ne]
        exact append_ne_right _ (by decide)
      simp [dictGet, List.find?, hk1, hk2]
    · have hk1 : (P ++ "-submodule-" ++ sm.name ++ "-origin"
          == P ++ "-submodule-" ++ n ++ "-branch") = false := by
        rw [beq_eq_false_iff_ne]
        exact str_append_ne_of_rev "-origin" "-branch" 0 (by decide) (by decide) (by decide) _ _
      have hk2 : (P ++ "-submodule-" ++ sm.name ++ "-hash"
          == P ++ "-submodule-" ++ n ++ "-branch") = false := by
        rw [beq_eq_false_iff_ne]
        exact str_append_ne_of_rev "-hash" "-branch" 1 (by decide) (by decide) (by decide) _ _
      have hk3 : (P ++ "-submodule-" ++ sm.name ++ "-branch"
          == P ++ "-submodule-" ++ n ++ "-branch") = false := by
        rw [beq_eq_false_iff_ne]
        exact subKey_ne_of_name_ne P "-branch" hname
      have hn : (sm.name == n) = false := by
        rw [beq_eq_false_iff_ne]
        exact hname
      simp [dictGet, List.find?, hk1, hk2, hk3, hn]

theorem dictGet_revBlocks_hash (P n : String) (l : List Submodule) :
    dictGet (l.flatMap (fun sm => (subEntries P sm).reverse))
        (P ++ "-submodule-" ++ n ++ "-hash")
      = (l.find? (fun sm => sm.name == n)).map (fun sm => sm.hexsha) := by
  induction l with
  | nil => rfl
  | cons sm t ih =>
    rw [List.flatMap_cons, dictGet_append, ih, subEntries_reverse]
    by_cases hname : sm.name = n
    · subst hname
      have hk1 : (P ++ "-submodule-" ++ sm.name ++ "-origin"
          == P ++ "-submodule-" ++ sm.name ++ "-hash") = false := by
        rw [beq_eq_false_iff_ne]
        exact append_ne_right _ (by decide)
      simp [dictGet, List.find?, hk1]
    · have hk1 : (P ++ "-submodule-" ++ sm.name ++ "-origin"
          == P ++ "-submodule-" ++ n ++ "-hash") = false := by
        rw [beq_eq_false_iff_ne]
        exact str_append_ne_of_rev "-origin" "-hash" 0 (by decide) (by decide) (by decide) _ _
      have hk2 : (P ++ "-submodule-" ++ sm.name ++ "-hash"
          == P ++ "-submodule-" ++ n ++ "-hash") = false := by
        rw [beq_eq_false_iff_ne]
        exact subKey_ne_of_name_ne P "-hash" hname
      have hk3 : (P ++ "-submodule-" ++ sm.name ++ "-branch"
          == P ++ "-submodule-" ++ n ++ "-hash") = false := by
        rw [beq_eq_false_iff_ne]
        exact str_append_ne_of_rev "-branch" "-hash" 1 (by decide) (by decide) (by decide) _ _
      have hn : (sm.name == n) = false := by
        rw [beq_eq_false_iff_ne]
        exact hname
      simp [dictGet, List.find?, hk1, hk2, hk3, hn]

theorem dictGet_revBlocks_origin (P n : String) (l : List Submodule) :
    dictGet (l.flatMap (fun sm => (subEntries P sm).reverse))
        (P ++ "-submodule-" ++ n ++ "-origin")
      = (l.find? (fun sm => sm.name == n)).map (fun sm => sm.url) := by
  induction l with
  | nil => rfl
  | cons sm t ih =>
    rw [List.flatMap_cons, dictGet_append, ih, subEntries_reverse]
    by_cases hname : sm.name = n
    · subst hname
      simp [dictGet, List.find?]
    · have hk1 : (P ++ "-submodule-" ++ sm.name ++ "-origin"
          == P ++ "-submodule-" ++ n ++ "-origin") = false := by
        rw [beq_eq_false_iff_ne]
        exact subKey_ne_of_name_ne P "-origin" hname
      have hk2 : (P ++ "-submodule-" ++ sm.name ++ "-hash"
          == P ++ "-submodule-" ++ n ++ "-origin") = false := by
        rw [beq_eq_false_iff_ne]
        exact str_append_ne_of_rev "-hash" "-origin" 0 (by decide) (by decide) (by decide) _ _
      have hk3 : (P ++ "-submodule-" ++ sm.name ++ "-branch"
          == P ++ "-submodule-" ++ n ++ "-origin") = false := by
        rw [beq_eq_false_iff_ne]
        exact str_append_ne_of_rev "-branch" "-origin" 0 (by decide) (by decide) (by decide) _ _
      have hn : (sm.name == n) = false := by
        rw [beq_eq_false_iff_ne]
        exact hname
      simp [dictGet, List.find?, hk1, hk2, hk3, hn]

theorem dictGet_tagData_subKey_branch (P n : String) (b h o : GitValue)
    (subs : List Submodule) (sm : Submodule)
    (hlast : subs.reverse.find? (fun s => s.name == n) = some sm) :
    dictGet (tagData P b h o subs) (P ++ "-submodule-" ++ n ++ "-branch")
      = some sm.branch := by
  rw [dictGet_tagData, List.reverse_flatMap]
  simp only [Function.comp_def]
  rw [dictGet_revBlocks_branch P n subs.reverse, hlast]
  rfl

theorem dictGet_tagData_subKey_hash (P n : String) (b h o : GitValue)
    (subs : List Submodule) (sm : Submodule)
    (hlast : subs.reverse.find? (fun s => s.name == n) = some sm) :
    dictGet (tagData P b h o subs) (P ++ "-submodule-" ++ n ++ "-hash")
      = some sm.hexsha := by
  rw [dictGet_tagData, List.reverse_flatMap]
  simp only [Function.comp_def]
  rw [dictGet_revBlocks_hash P n subs.reverse, hlast]
  rfl

theorem dictGet_tagData_subKey_origin (P n : String) (b h o : GitValue)
    (subs : List Submodule) (sm : Submodule)
    (hlast : subs.reverse.find? (fun s => s.name == n) = some sm) :
    dictGet (tagData P b h o subs) (P ++ "-submodule-" ++ n ++ "-origin")
      = some sm.url := by
  rw [dictGet_tagData, List.reverse_flatMap]
  simp only [Function.comp_def]
  rw [dictGet_revBlocks_origin P n subs.reverse, hlast]
  rfl

/-! ### Exhaustive case analysis of a call -/

/-- Every call either returns the string coercion of some `GitValue`
dict, or propagates a GitPython-layer error unchanged, or (only with
`suppress = false`) raises `DirtyGitRepo`. -/
theorem repository_tags_cases (Repo : Bool → Except GitError RepoState)
    (p : String) (spd su : Bool) :
    (∃ m, repository_tags Repo p spd su = Except.ok m
        ∧ ∃ d : List (String × GitValue), m = d.map (fun kv => (kv.1, pyStr kv.2)))
    ∨ (∃ e : GitError, repository_tags Repo p spd su = Except.error (TagError.git e))
    ∨ (su = false
        ∧ repository_tags Repo p spd su = Except.error (TagError.dirtyGitRepo dirtyMsg)) := by
  rcases hR : Repo spd with e | repo
  · refine Or.inr (Or.inl ⟨e, ?_⟩)
    unfold repository_tags
    rw [hR, mapError_error, error_bind]
  · rcases hq : repo.dirtyQueryFailure with _ | e
    · by_cases hgate : ((repo.trackedModifications
          || repo.untrackedFiles || repo.submodulesDirty) && !su) = true
      · refine Or.inr (Or.inr ⟨?_, ?_⟩)
        · rcases Bool.and_eq_true _ _ |>.mp hgate with ⟨_, hsu⟩
          simpa using hsu
        · unfold repository_tags
          rw [hR, mapError_ok, ok_bind]
          unfold RepoState.is_dirty
          rw [hq]
          simp only [mapError_ok, ok_bind, Bool.true_and]
          rw [hgate]
          rfl
      · have hgate' : ((repo.trackedModifications
            || repo.untrackedFiles || repo.submodulesDirty) && !su) = false :=
          Bool.eq_false_iff.mpr hgate
        rcases hb : repo.active_branch with e | b
        · refine Or.inr (Or.inl ⟨e, ?_⟩)
          unfold repository_tags
          rw [hR, mapError_ok, ok_bind]
          unfold RepoState.is_dirty
          rw [hq]
          simp only [mapError_ok, ok_bind, Bool.true_and]
          rw [hgate']
          simp only [Bool.false_eq_true, if_false, epure_bind]
          rw [hb, mapError_error, error_bind]
          rfl
        · rcases hh : repo.head_object_hexsha with e | h
          · refine Or.inr (Or.inl ⟨e, ?_⟩)
            unfold repository_tags
            rw [hR, mapError_ok, ok_bind]
            unfold RepoState.is_dirty
            rw [hq]
            simp only [mapError_ok, ok_bind, Bool.true_and]
            rw [hgate']
            simp only [Bool.false_eq_true, if_false, epure_bind]
            rw [hb, mapError_ok, ok_bind, hh, mapError_error, error_bind]
            rfl
          · rcases ho : repo.remotes_origin_url with e | o
            · refine Or.inr (Or.inl ⟨e, ?_⟩)
              unfold repository_tags
              rw [hR, mapError_ok, ok_bind]
              unfold RepoState.is_dirty
              rw [hq]
              simp only [mapError_ok, ok_bind, Bool.true_and]
              rw [hgate']
              simp only [Bool.false_eq_true, if_false, epure_bind]
              rw [hb, mapError_ok, ok_bind, hh, mapError_ok, ok_bind, ho,
                mapError_error, error_bind]
              rfl
            · rcases hs : repo.submodules with e | subs
              · refine Or.inr (Or.inl ⟨e, ?_⟩)
                unfold repository_tags
                rw [hR, mapError_ok, ok_bind]
                unfold RepoState.is_dirty
                rw [hq]
                simp only [mapError_ok, ok_bind, Bool.true_and]
                rw [hgate']
                simp only [Bool.false_eq_true, if_false, epure_bind]
                rw [hb, mapError_ok, ok_bind, hh, mapError_ok, ok_bind, ho,
                  mapError_ok, ok_bind, hs, mapError_error, error_bind]
                rfl
              · have hnd : (repo.trackedModifications || repo.untrackedFiles
                    || repo.submodulesDirty) = false ∨ su = true := by
                  cases su
                  · left
                    simpa using hgate'
                  · right
                    rfl
                exact Or.inl ⟨_,
                  repository_tags_ok Repo p spd su repo b h o subs hR hq hnd hb hh ho hs,
                  _, rfl⟩
    · refine Or.inr (Or.inl ⟨e, ?_⟩)
      unfold repository_tags
      rw [hR, mapError_ok, ok_bind]
      unfold RepoState.is_dirty
      rw [hq, mapError_error, error_bind]

/-! ### The claims -/

/-- Claim C1: for every repository whose working tree is dirty
(tracked modifications, untracked files, or a dirty sub-repository,
the three ingredients `is_dirty(untracked_files=True, submodules=True)`
considers), calling `repository_tags` with `suppress = false` raises
the distinct `DirtyGitRepo` error and returns no mapping, partial or
full. -/
theorem repository_tags_dirty_raises
    (Repo : Bool → Except GitError RepoState) (p : String) (spd : Bool) (repo : RepoState)
    (hres : Repo spd = Except.ok repo)
    (hq : repo.dirtyQueryFailure = none)
    (hdirty : (repo.trackedModifications || repo.untrackedFiles || repo.submodulesDirty) = true) :
    repository_tags Repo p spd false = Except.error (TagError.dirtyGitRepo dirtyMsg) := by
  unfold repository_tags
  rw [hres, mapError_ok, ok_bind]
  unfold RepoState.is_dirty
  rw [hq]
  simp only [mapError_ok, ok_bind, Bool.true_and]
  rw [hdirty]
  rfl

/-- Witness for C1: a repository with one untracked file makes the
call with `suppress = false` fail with `DirtyGitRepo`. -/
theorem repository_tags_dirty_raises_witness :
    repository_tags (fun _ => Except.ok dirtyRepo) "git" false false
      = Except.error (TagError.dirtyGitRepo dirtyMsg) :=
  repository_tags_dirty_raises (fun _ => Except.ok dirtyRepo) "git" false dirtyRepo
    rfl rfl rfl

/-- Claim C2: for every dirty repository, calling with
`suppress = true` returns a mapping (no error), whose values still
reflect the current branch, commit hash and origin URL. -/
theorem repository_tags_suppress_dirty_returns
    (Repo : Bool → Except GitError RepoState) (p : String) (spd : Bool) (repo : RepoState)
    (b h o : GitValue) (subs : List Submodule)
    (hres : Repo spd = Except.ok repo)
    (hq : repo.dirtyQueryFailure = none)
    (hdirty : (repo.trackedModifications || repo.untrackedFiles || repo.submodulesDirty) = true)
    (hb : repo.active_branch = Except.ok b)
    (hh : repo.head_object_hexsha = Except.ok h)
    (ho : repo.remotes_origin_url = Except.ok o)
    (hs : repo.submodules = Except.ok subs) :
    ∃ m, repository_tags Repo p spd true = Except.ok m
      ∧ dictGet m ((if p = "" then "git" else p) ++ "-branch") = some (pyStr b)
      ∧ dictGet m ((if p = "" then "git" else p) ++ "-hash") = some (pyStr h)
      ∧ dictGet m ((if p = "" then "git" else p) ++ "-origin") = some (pyStr o) := by
  refine ⟨_, repository_tags_ok Repo p spd true repo b h o subs hres hq (Or.inr rfl)
    hb hh ho hs, ?_, ?_, ?_⟩
  · rw [dictGet_map_str, dictGet_tagData_branch]
    rfl
  · rw [dictGet_map_str, dictGet_tagData_hash]
    rfl
  · rw [dictGet_map_str, dictGet_tagData_origin]
    rfl

/-- Witness for C2: the dirty repository of the C1 witness, with
`suppress = true`, returns its branch / hash / origin. -/
theorem repository_tags_suppress_dirty_returns_witness :
    ∃ m, repository_tags (fun _ => Except.ok dirtyRepo) "git" false true = Except.ok m
      ∧ dictGet m "git-branch" = some "main"
      ∧ dictGet m "git-hash" = some "0123abcd"
      ∧ dictGet m "git-origin" = some "https://example.com/app.git" :=
  repository_tags_suppress_dirty_returns (fun _ => Except.ok dirtyRepo) "git" false dirtyRepo
    (GitValue.headObj "main") (GitValue.str "0123abcd")
    (GitValue.str "https://example.com/app.git") [] rfl rfl rfl rfl rfl rfl rfl

/-- Claim C3 counterexample: with `suppress = true` the dirtiness
query is still performed — Python evaluates `repo.is_dirty(...)`
before `and not suppress` — so an error originating from the dirtiness
query escapes even though `suppress` is true, refuting "the dirtiness
query is not performed at all, so no error originating from the
dirtiness query can be raised when suppress is true". -/
theorem suppress_still_queries_dirtiness_cex :
    repository_tags (fun _ => Except.ok dirtyQueryFailRepo) "git" false true
      = Except.error (TagError.git (GitError.queryFailure "git diff failed")) := rfl

/-- Claim C3 (amended): with `suppress = true` the outcome of the
clean-tree check is ignored — the `DirtyGitRepo` error is never raised
(every result is a mapping or a propagated GitPython-layer error) —
but the dirtiness query itself is still performed, and its own failure
still propagates to the caller. -/
theorem repository_tags_suppress_amended (Repo : Bool → Except GitError RepoState)
    (p : String) (spd : Bool) :
    ((∃ m, repository_tags Repo p spd true = Except.ok m)
        ∨ (∃ e : GitError, repository_tags Repo p spd true = Except.error (TagError.git e)))
    ∧ (∀ repo e, Repo spd = Except.ok repo → repo.dirtyQueryFailure = some e →
        repository_tags Repo p spd true = Except.error (TagError.git e)) := by
  constructor
  · rcases repository_tags_cases Repo p spd true with ⟨m, hm, _⟩ | ⟨e, he⟩ | ⟨hsu, _⟩
    · exact Or.inl ⟨m, hm⟩
    · exact Or.inr ⟨e, he⟩
    · exact absurd hsu (by decide)
  · intro repo e hres hq
    unfold repository_tags
    rw [hres, mapError_ok, ok_bind]
    unfold RepoState.is_dirty
    rw [hq, mapError_error, error_bind]

/-- Witness for the amended C3: the failure of the dirtiness query
propagates even with `suppress = true`. -/
theorem repository_tags_suppress_amended_witness :
    repository_tags (fun _ => Except.ok dirtyQueryFailRepo) "git" false true
      = Except.error (TagError.git (GitError.queryFailure "git diff failed")) :=
  (repository_tags_suppress_amended (fun _ => Except.ok dirtyQueryFailRepo) "git" false).2
    dirtyQueryFailRepo (GitError.queryFailure "git diff failed") rfl rfl

/-- Claim C4: for every repository with zero uncommitted and zero
untracked changes, the call with `suppress = false` returns a mapping
whose key set is exactly the three main keys plus three namespaced
keys per sub-repository. -/
theorem repository_tags_clean_key_set
    (Repo : Bool → Except GitError RepoState) (p : String) (spd : Bool) (repo : RepoState)
    (b h o : GitValue) (subs : List Submodule)
    (hres : Repo spd = Except.ok repo)
    (hq : repo.dirtyQueryFailure = none)
    (hclean : (repo.trackedModifications || repo.untrackedFiles || repo.submodulesDirty) = false)
    (hb : repo.active_branch = Except.ok b)
    (hh : repo.head_object_hexsha = Except.ok h)
    (ho : repo.remotes_origin_url = Except.ok o)
    (hs : repo.submodules = Except.ok subs) :
    ∃ m, repository_tags Repo p spd false = Except.ok m
      ∧ ∀ k, k ∈ m.map Prod.fst ↔ k ∈ expectedKeys (if p = "" then "git" else p) subs := by
  refine ⟨_, repository_tags_ok Repo p spd false repo b h o subs hres hq (Or.inl hclean)
    hb hh ho hs, ?_⟩
  intro k
  rw [keys_map_str, mem_keys_tagData]
  simp only [expectedKeys, mainEntries, subEntries, List.mem_append, List.mem_cons,
    List.not_mem_nil, or_false, List.mem_flatMap, List.map_cons, List.map_nil,
    List.mem_map]
  constructor
  · rintro (hmain | ⟨kv, ⟨sm, hsm, hkv⟩, hfst⟩)
    · exact Or.inl hmain
    · refine Or.inr ⟨sm, hsm, ?_⟩
      subst hfst
      rcases hkv with hkv | hkv | hkv <;> subst hkv <;> simp
  · rintro (hmain | ⟨sm, hsm, hk⟩)
    · exact Or.inl hmain
    · refine Or.inr ?_
      rcases hk with hk | hk | hk <;> subst hk
      · exact ⟨_, ⟨sm, hsm, Or.inl rfl⟩, rfl⟩
      · exact ⟨_, ⟨sm, hsm, Or.inr (Or.inl rfl)⟩, rfl⟩
      · exact ⟨_, ⟨sm, hsm, Or.inr (Or.inr rfl)⟩, rfl⟩

/-- Witness for C4 at the clean one-submodule repository. -/
theorem repository_tags_clean_key_set_witness :
    ∃ m, repository_tags (fun _ => Except.ok vendorRepo) "git" false false = Except.ok m
      ∧ ∀ k, k ∈ m.map Prod.fst ↔ k ∈ expectedKeys "git"
          [Submodule.mk "vendor-lib" (GitValue.headObj "main") (GitValue.str "deadbeef")
            (GitValue.str "https://example.com/vendor-lib.git")] :=
  repository_tags_clean_key_set (fun _ => Except.ok vendorRepo) "git" false vendorRepo
    (GitValue.headObj "main") (GitValue.str "0123abcd")
    (GitValue.str "https://example.com/app.git")
    [Submodule.mk "vendor-lib" (GitValue.headObj "main") (GitValue.str "deadbeef")
      (GitValue.str "https://example.com/vendor-lib.git")] rfl rfl rfl rfl rfl rfl rfl

/-- Claim C5: every returned mapping is the pointwise string coercion
of a dict of native VCS-layer values: each value is `str(...)` of some
`GitValue` (possibly a richer `Head` object), applied before the
mapping is returned. -/
theorem repository_tags_values_strings (Repo : Bool → Except GitError RepoState)
    (p : String) (spd su : Bool) (m : List (String × String))
    (hm : repository_tags Repo p spd su = Except.ok m) :
    ∃ d : List (String × GitValue), m = d.map (fun kv => (kv.1, pyStr kv.2))
      ∧ ∀ kv ∈ m, ∃ v : GitValue, kv.2 = pyStr v := by
  rcases repository_tags_cases Repo p spd su with ⟨m', hm', d, hd⟩ | ⟨e, he⟩ | ⟨_, he⟩
  · rw [hm] at hm'
    injection hm' with hmm
    subst hmm
    refine ⟨d, hd, ?_⟩
    intro kv hkv
    rw [hd, List.mem_map] at hkv
    obtain ⟨kv0, _, hkv0⟩ := hkv
    exact ⟨kv0.2, by rw [← hkv0]⟩
  · rw [hm] at he
    cases he
  · rw [hm] at he
    cases he

set_option maxRecDepth 10000 in
/-- Witness for C5 at the clean one-submodule repository, whose branch
values are native `Head` objects. -/
theorem repository_tags_values_strings_witness :
    ∃ d : List (String × GitValue),
      ([("git-branch", "main"), ("git-hash", "0123abcd"),
        ("git-origin", "https://example.com/app.git"),
        ("git-submodule-vendor-lib-branch", "main"),
        ("git-submodule-vendor-lib-hash", "deadbeef"),
        ("git-submodule-vendor-lib-origin", "https://example.com/vendor-lib.git")]
        : List (String × String)) = d.map (fun kv => (kv.1, pyStr kv.2))
      ∧ ∀ kv ∈ ([("git-branch", "main"), ("git-hash", "0123abcd"),
        ("git-origin", "https://example.com/app.git"),
        ("git-submodule-vendor-lib-branch", "main"),
        ("git-submodule-vendor-lib-hash", "deadbeef"),
        ("git-submodule-vendor-lib-origin", "https://example.com/vendor-lib.git")]
        : List (String × String)), ∃ v : GitValue, kv.2 = pyStr v :=
  repository_tags_values_strings (fun _ => Except.ok vendorRepo) "git" false false
    [("git-branch", "main"), ("git-hash", "0123abcd"),
     ("git-origin", "https://example.com/app.git"),
     ("git-submodule-vendor-lib-branch", "main"),
     ("git-submodule-vendor-lib-hash", "deadbeef"),
     ("git-submodule-vendor-lib-origin", "https://example.com/vendor-lib.git")] rfl

/-- Claim C6: when the VCS layer reports two or more sub-repositories
with the same name, the later entries silently overwrite the earlier
ones via dict-update semantics: for each name, the returned mapping
holds the branch / hash / origin of the last sub-repository with that
name in iteration order, and no error is raised. -/
theorem repository_tags_duplicate_names_last_wins
    (Repo : Bool → Except GitError RepoState) (p : String) (spd su : Bool) (repo : RepoState)
    (b h o : GitValue) (subs : List Submodule)
    (hres : Repo spd = Except.ok repo)
    (hq : repo.dirtyQueryFailure = none)
    (hnd : (repo.trackedModifications || repo.untrackedFiles || repo.submodulesDirty) = false
      ∨ su = true)
    (hb : repo.active_branch = Except.ok b)
    (hh : repo.head_object_hexsha = Except.ok h)
    (ho : repo.remotes_origin_url = Except.ok o)
    (hs : repo.submodules = Except.ok subs)
    (n : String) (sm : Submodule)
    (hdup : 2 ≤ (subs.filter (fun s => s.name == n)).length)
    (hlast : subs.reverse.find? (fun s => s.name == n) = some sm) :
    ∃ m, repository_tags Repo p spd su = Except.ok m
      ∧ dictGet m ((if p = "" then "git" else p) ++ "-submodule-" ++ n ++ "-branch")
          = some (pyStr sm.branch)
      ∧ dictGet m ((if p = "" then "git" else p) ++ "-submodule-" ++ n ++ "-hash")
          = some (pyStr sm.hexsha)
      ∧ dictGet m ((if p = "" then "git" else p) ++ "-submodule-" ++ n ++ "-origin")
          = some (pyStr sm.url) := by
  refine ⟨_, repository_tags_ok Repo p spd su repo b h o subs hres hq hnd hb hh ho hs,
    ?_, ?_, ?_⟩
  · rw [dictGet_map_str, dictGet_tagData_subKey_branch _ _ _ _ _ _ _ hlast]
    rfl
  · rw [dictGet_map_str, dictGet_tagData_subKey_hash _ _ _ _ _ _ _ hlast]
    rfl
  · rw [dictGet_map_str, dictGet_tagData_subKey_origin _ _ _ _ _ _ _ hlast]
    rfl

/-- Witness for C6: two submodules both named `lib`; the returned
entries carry the second one's values, and no error is raised. -/
theorem repository_tags_duplicate_names_last_wins_witness :
    ∃ m, repository_tags (fun _ => Except.ok dupNamesRepo) "git" false false = Except.ok m
      ∧ dictGet m "git-submodule-lib-branch" = some "second"
      ∧ dictGet m "git-submodule-lib-hash" = some "2222"
      ∧ dictGet m "git-submodule-lib-origin" = some "https://example.com/second.git" :=
  repository_tags_duplicate_names_last_wins (fun _ => Except.ok dupNamesRepo) "git" false false
    dupNamesRepo (GitValue.headObj "main") (GitValue.str "0123abcd")
    (GitValue.str "https://example.com/app.git")
    [Submodule.mk "lib" (GitValue.headObj "first") (GitValue.str "1111")
      (GitValue.str "https://example.com/first.git"),
     Submodule.mk "lib" (GitValue.headObj "second") (GitValue.str "2222")
      (GitValue.str "https://example.com/second.git")]
    rfl rfl (Or.inl rfl) rfl rfl rfl rfl "lib"
    (Submodule.mk "lib" (GitValue.headObj "second") (GitValue.str "2222")
      (GitValue.str "https://example.com/second.git"))
    (by decide) rfl

/-- Claim C7: for every repository state, the empty namespacing
argument is normalized to the literal `"git"`, so a call with `""`
returns exactly what the call with `"git"` returns — in particular the
same key set. -/
theorem repository_tags_empty_prefix_eq_git (Repo : Bool → Except GitError RepoState)
    (spd su : Bool) :
    repository_tags Repo "" spd su = repository_tags Repo "git" spd su := rfl

set_option maxRecDepth 10000 in
/-- Claim C8: a clean repository with one sub-repository named
`vendor-lib` at branch `main`, hash `deadbeef`, origin
`https://example.com/vendor-lib.git` yields, with the default
namespacing argument, exactly those three namespaced entries among the
output. -/
theorem repository_tags_vendor_lib_example :
    ∃ m, repository_tags (fun _ => Except.ok vendorRepo) "git" false false = Except.ok m
      ∧ dictGet m "git-submodule-vendor-lib-branch" = some "main"
      ∧ dictGet m "git-submodule-vendor-lib-hash" = some "deadbeef"
      ∧ dictGet m "git-submodule-vendor-lib-origin"
          = some "https://example.com/vendor-lib.git" := by
  refine ⟨[("git-branch", "main"), ("git-hash", "0123abcd"),
    ("git-origin", "https://example.com/app.git"),
    ("git-submodule-vendor-lib-branch", "main"),
    ("git-submodule-vendor-lib-hash", "deadbeef"),
    ("git-submodule-vendor-lib-origin", "https://example.com/vendor-lib.git")],
    ?_, rfl, rfl, rfl⟩
  rfl

/-- Claim C9: resolution failure (in particular Repository-Not-Found
with parent search disabled) and any GitPython-layer query failure
propagate to the caller unchanged — not retried, not re-wrapped beyond
the error-kind embedding, and with no partial mapping.  One conjunct
per failure site of the call, in the order the source performs them:
resolution, the dirtiness query, and — once the gate has been passed —
the branch, commit-hash, origin-URL (e.g. a missing remote) and
submodule-enumeration queries. -/
theorem repository_tags_error_propagation (Repo : Bool → Except GitError RepoState)
    (p : String) (su : Bool) :
    (Repo false = Except.error GitError.invalidGitRepositoryError →
        repository_tags Repo p false su
          = Except.error (TagError.git GitError.invalidGitRepositoryError))
    ∧ (∀ (spd : Bool) (e : GitError), Repo spd = Except.error e →
        repository_tags Repo p spd su = Except.error (TagError.git e))
    ∧ (∀ (spd : Bool) (repo : RepoState) (e : GitError), Repo spd = Except.ok repo →
        repo.dirtyQueryFailure = some e →
        repository_tags Repo p spd su = Except.error (TagError.git e))
    ∧ (∀ (spd : Bool) (repo : RepoState) (e : GitError), Repo spd = Except.ok repo →
        repo.dirtyQueryFailure = none →
        ((repo.trackedModifications || repo.untrackedFiles || repo.submodulesDirty) = false
          ∨ su = true) →
        repo.active_branch = Except.error e →
        repository_tags Repo p spd su = Except.error (TagError.git e))
    ∧ (∀ (spd : Bool) (repo : RepoState) (b : GitValue) (e : GitError),
        Repo spd = Except.ok repo →
        repo.dirtyQueryFailure = none →
        ((repo.trackedModifications || repo.untrackedFiles || repo.submodulesDirty) = false
          ∨ su = true) →
        repo.active_branch = Except.ok b →
        repo.head_object_hexsha = Except.error e →
        repository_tags Repo p spd su = Except.error (TagError.git e))
    ∧ (∀ (spd : Bool) (repo : RepoState) (b h : GitValue) (e : GitError),
        Repo spd = Except.ok repo →
        repo.dirtyQueryFailure = none →
        ((repo.trackedModifications || repo.untrackedFiles || repo.submodulesDirty) = false
          ∨ su = true) →
        repo.active_branch = Except.ok b →
        repo.head_object_hexsha = Except.ok h →
        repo.remotes_origin_url = Except.error e →
        repository_tags Repo p spd su = Except.error (TagError.git e))
    ∧ (∀ (spd : Bool) (repo : RepoState) (b h o : GitValue) (e : GitError),
        Repo spd = Except.ok repo →
        repo.dirtyQueryFailure = none →
        ((repo.trackedModifications || repo.untrackedFiles || repo.submodulesDirty) = false
          ∨ su = true) →
        repo.active_branch = Except.ok b →
        repo.head_object_hexsha = Except.ok h →
        repo.remotes_origin_url = Except.ok o →
        repo.submodules = Except.error e →
        repository_tags Repo p spd su = Except.error (TagError.git e)) := by
  have hprop : ∀ (spd : Bool) (e : GitError), Repo spd = Except.error e →
      repository_tags Repo p spd su = Except.error (TagError.git e) := by
    intro spd e hres
    unfold repository_tags
    rw [hres, mapError_error, error_bind]
  have hgate : ∀ repo : RepoState,
      ((repo.trackedModifications || repo.untrackedFiles || repo.submodulesDirty) = false
        ∨ su = true) →
      ((repo.trackedModifications || repo.untrackedFiles || repo.submodulesDirty)
        && !su) = false := by
    intro repo hnd
    rcases hnd with hnd | hnd <;> simp [hnd]
  refine ⟨fun hres => hprop false _ hres, hprop, ?_, ?_, ?_, ?_, ?_⟩
  · intro spd repo e hres hq
    unfold repository_tags
    rw [hres, mapError_ok, ok_bind]
    unfold RepoState.is_dirty
    rw [hq, mapError_error, error_bind]
  · intro spd repo e hres hq hnd hb
    unfold repository_tags
    rw [hres, mapError_ok, ok_bind]
    unfold RepoState.is_dirty
    rw [hq]
    simp only [mapError_ok, ok_bind, Bool.true_and]
    rw [hgate repo hnd]
    simp only [Bool.false_eq_true, if_false, epure_bind]
    rw [hb, mapError_error, error_bind]
    rfl
  · intro spd repo b e hres hq hnd hb hh
    unfold repository_tags
    rw [hres, mapError_ok, ok_bind]
    unfold RepoState.is_dirty
    rw [hq]
    simp only [mapError_ok, ok_bind, Bool.true_and]
    rw [hgate repo hnd]
    simp only [Bool.false_eq_true, if_false, epure_bind]
    rw [hb, mapError_ok, ok_bind, hh, mapError_error, error_bind]
    rfl
  · intro spd repo b h e hres hq hnd hb hh ho
    unfold repository_tags
    rw [hres, mapError_ok, ok_bind]
    unfold RepoState.is_dirty
    rw [hq]
    simp only [mapError_ok, ok_bind, Bool.true_and]
    rw [hgate repo hnd]
    simp only [Bool.false_eq_true, if_false, epure_bind]
    rw [hb, mapError_ok, ok_bind, hh, mapError_ok, ok_bind, ho,
      mapError_error, error_bind]
    rfl
  · intro spd repo b h o e hres hq hnd hb hh ho hs
    unfold repository_tags
    rw [hres, mapError_ok, ok_bind]
    unfold RepoState.is_dirty
    rw [hq]
    simp only [mapError_ok, ok_bind, Bool.true_and]
    rw [hgate repo hnd]
    simp only [Bool.false_eq_true, if_false, epure_bind]
    rw [hb, mapError_ok, ok_bind, hh, mapError_ok, ok_bind, ho,
      mapError_ok, ok_bind, hs, mapError_error, error_bind]
    rfl

/-- Witness for C9: a location with no version-control metadata makes
the call fail with the Repository-Not-Found error kind, and a missing
`origin` remote makes the origin-URL query's failure propagate
unchanged. -/
theorem repository_tags_error_propagation_witness :
    (repository_tags (fun _ => Except.error GitError.invalidGitRepositoryError)
        "git" false false
      = Except.error (TagError.git GitError.invalidGitRepositoryError))
    ∧ (repository_tags (fun _ => Except.ok missingRemoteRepo) "git" false false
      = Except.error (TagError.git (GitError.queryFailure "no remote named origin"))) :=
  ⟨(repository_tags_error_propagation
      (fun _ => Except.error GitError.invalidGitRepositoryError) "git" false).1 rfl,
   (repository_tags_error_propagation
      (fun _ => Except.ok missingRemoteRepo) "git" false).2.2.2.2.2.1
     false missingRemoteRepo (GitValue.headObj "main") (GitValue.str "0123abcd")
     (GitError.queryFailure "no remote named origin") rfl rfl (Or.inl rfl) rfl rfl rfl⟩

/-- Claim C10: for every successful call, whatever the namespacing
argument and the submodule names, the three main-repository entries
are present with the main repository's values: no sub-repository entry
can overwrite them, because every sub-repository key carries the extra
`-submodule-{name}-` infix. -/
theorem repository_tags_main_entries
    (Repo : Bool → Except GitError RepoState) (p : String) (spd su : Bool) (repo : RepoState)
    (b h o : GitValue) (subs : List Submodule) (m : List (String × String))
    (hres : Repo spd = Except.ok repo)
    (hb : repo.active_branch = Except.ok b)
    (hh : repo.head_object_hexsha = Except.ok h)
    (ho : repo.remotes_origin_url = Except.ok o)
    (hs : repo.submodules = Except.ok subs)
    (hm : repository_tags Repo p spd su = Except.ok m) :
    dictGet m ((if p = "" then "git" else p) ++ "-branch") = some (pyStr b)
    ∧ dictGet m ((if p = "" then "git" else p) ++ "-hash") = some (pyStr h)
    ∧ dictGet m ((if p = "" then "git" else p) ++ "-origin") = some (pyStr o) := by
  rcases hq : repo.dirtyQueryFailure with _ | e
  · by_cases hgate : ((repo.trackedModifications
        || repo.untrackedFiles || repo.submodulesDirty) && !su) = true
    · exfalso
      have herr : repository_tags Repo p spd su
          = Except.error (TagError.dirtyGitRepo dirtyMsg) := by
        unfold repository_tags
        rw [hres, mapError_ok, ok_bind]
        unfold RepoState.is_dirty
        rw [hq]
        simp only [mapError_ok, ok_bind, Bool.true_and]
        rw [hgate]
        rfl
      rw [hm] at herr
      cases herr
    · have hgate' : ((repo.trackedModifications
          || repo.untrackedFiles || repo.submodulesDirty) && !su) = false :=
        Bool.eq_false_iff.mpr hgate
      have hnd : (repo.trackedModifications || repo.untrackedFiles
          || repo.submodulesDirty) = false ∨ su = true := by
        cases su
        · left
          simpa using hgate'
        · right
          rfl
      have hok := repository_tags_ok Repo p spd su repo b h o subs hres hq hnd hb hh ho hs
      rw [hm] at hok
      injection hok with hmm
      subst hmm
      refine ⟨?_, ?_, ?_⟩
      · rw [dictGet_map_str, dictGet_tagData_branch]
        rfl
      · rw [dictGet_map_str, dictGet_tagData_hash]
        rfl
      · rw [dictGet_map_str, dictGet_tagData_origin]
        rfl
  · exfalso
    have herr : repository_tags Repo p spd su = Except.error (TagError.git e) := by
      unfold repository_tags
      rw [hres, mapError_ok, ok_bind]
      unfold RepoState.is_dirty
      rw [hq, mapError_error, error_bind]
    rw [hm] at herr
    cases herr

set_option maxRecDepth 10000 in
/-- Witness for C10 at the clean one-submodule repository. -/
theorem repository_tags_main_entries_witness :
    dictGet ([("git-branch", "main"), ("git-hash", "0123abcd"),
        ("git-origin", "https://example.com/app.git"),
        ("git-submodule-vendor-lib-branch", "main"),
        ("git-submodule-vendor-lib-hash", "deadbeef"),
        ("git-submodule-vendor-lib-origin", "https://example.com/vendor-lib.git")]
        : List (String × String)) "git-branch" = some "main"
    ∧ dictGet ([("git-branch", "main"), ("git-hash", "0123abcd"),
        ("git-origin", "https://example.com/app.git"),
        ("git-submodule-vendor-lib-branch", "main"),
        ("git-submodule-vendor-lib-hash", "deadbeef"),
        ("git-submodule-vendor-lib-origin", "https://example.com/vendor-lib.git")]
        : List (String × String)) "git-hash" = some "0123abcd"
    ∧ dictGet ([("git-branch", "main"), ("git-hash", "0123abcd"),
        ("git-origin", "https://example.com/app.git"),
        ("git-submodule-vendor-lib-branch", "main"),
        ("git-submodule-vendor-lib-hash", "deadbeef"),
        ("git-submodule-vendor-lib-origin", "https://example.com/vendor-lib.git")]
        : List (String × String)) "git-origin" = some "https://example.com/app.git" :=
  repository_tags_main_entries (fun _ => Except.ok vendorRepo) "git" false false vendorRepo
    (GitValue.headObj "main") (GitValue.str "0123abcd")
    (GitValue.str "https://example.com/app.git")
    [Submodule.mk "vendor-lib" (GitValue.headObj "main") (GitValue.str "deadbeef")
      (GitValue.str "https://example.com/vendor-lib.git")]
    [("git-branch", "main"), ("git-hash", "0123abcd"),
     ("git-origin", "https://example.com/app.git"),
     ("git-submodule-vendor-lib-branch", "main"),
     ("git-submodule-vendor-lib-hash", "deadbeef"),
     ("git-submodule-vendor-lib-origin", "https://example.com/vendor-lib.git")]
    rfl rfl rfl rfl rfl rfl

end Git
